import Mathlib

/-!
Shallow embedding of `libs/agno/agno/tools/falkordb.py` (class `FalkorDBTools`).

The external FalkorDB client is modelled abstractly as a structure of
fallible functions (`DBConn`, `Graph`), matching the collaborator contract:
`select_graph` returns a graph handle or raises, `graph.query` returns a
result with an optional header and a row sequence, or raises.  Python
exceptions are modelled with `Except PyErr`; Python `or` and `if` on
possibly-falsy values are modelled with explicit truthiness functions.
-/

/-- Python exception payload (the message; its content is never inspected). -/
abbrev PyErr := String

/-- A value appearing in a result row (string, integer, or Python `None`). -/
inductive Value
  | str (s : String)
  | int (n : Int)
  | null
  deriving DecidableEq

instance : Inhabited Value := ⟨Value.null⟩

/-- The result object returned by `graph.query(...)`: an optional `header`
(ordered column names; `none` models Python `None`) and `result_set`,
a sequence of rows. -/
structure QueryResult where
  header : Option (List String)
  result_set : List (List Value)

/-- A graph handle, as returned by `db.select_graph(...)`: its `query`
method executes a query string and returns a result or raises. -/
structure Graph where
  query : String → Except PyErr QueryResult

/-- The FalkorDB connection object: `select_graph` returns a graph handle
scoped to the given graph name, or raises. -/
structure DBConn where
  select_graph : String → Except PyErr Graph

/-- The four public operations of the toolkit, used to record which
callables are advertised to the tool-registration host. -/
inductive Op
  | list_labels
  | list_relationship_types
  | get_schema
  | run_cypher_query
  deriving DecidableEq

/-- Python truthiness of an optional string: `None` and `""` are falsy. -/
def pyTruthyStr : Option String → Bool
  | none => false
  | some s => !s.isEmpty

/-- Python truthiness of an optional integer: `None` and `0` are falsy. -/
def pyTruthyInt : Option Int → Bool
  | none => false
  | some n => n != 0

/-- Python `x or y` where `x` is an optional string and `y` a string. -/
def pyOrStr (x : Option String) (y : String) : String :=
  match x with
  | some s => if s.isEmpty then y else s
  | none => y

/-- Python `x or y` where both sides are optional strings. -/
def pyOrOptStr (x : Option String) (y : Option String) : Option String :=
  match x with
  | some s => if s.isEmpty then y else some s
  | none => y

/-- Decimal digit accumulator for `pyInt`: consumes digits, failing on any
non-digit character; `none` as accumulator means no digit seen yet. -/
def parseDigits : List Char → Option Nat → Option Nat
  | [], acc => acc
  | c :: cs, acc =>
    if c.isDigit then parseDigits cs (some ((acc.getD 0) * 10 + (c.toNat - 48)))
    else none

/-- Python `int(s)`: an optional sign followed by decimal digits, raising
`ValueError` otherwise. -/
def pyInt (s : String) : Except PyErr Int :=
  let parsed : Option Int :=
    match s.data with
    | '-' :: cs => (parseDigits cs none).map (fun n => -(n : Int))
    | '+' :: cs => (parseDigits cs none).map (fun n => (n : Int))
    | cs => (parseDigits cs none).map (fun n => (n : Int))
  match parsed with
  | some n => Except.ok n
  | none => Except.error "ValueError"

/-- The process environment: the five `FALKORDB_*` variables consulted by
the constructor (`none` = variable not set). -/
structure Env where
  FALKORDB_HOST : Option String := none
  FALKORDB_PORT : Option String := none
  FALKORDB_USERNAME : Option String := none
  FALKORDB_PASSWORD : Option String := none
  FALKORDB_GRAPH : Option String := none

/-- `os.getenv(var, default)`. -/
def getenvD (v : Option String) (d : String) : String := v.getD d

/-- Line 47: `host = host or os.getenv("FALKORDB_HOST", "localhost")`. -/
def resolveHost (host : Option String) (env : Env) : String :=
  pyOrStr host (getenvD env.FALKORDB_HOST "localhost")

/-- Line 48: `port = port or int(os.getenv("FALKORDB_PORT", "6379"))`;
the `int(...)` conversion is only evaluated when `port` is falsy, and may
raise `ValueError`. -/
def resolvePort (port : Option Int) (env : Env) : Except PyErr Int :=
  if pyTruthyInt port then Except.ok (port.getD 0)
  else pyInt (getenvD env.FALKORDB_PORT "6379")

/-- Line 49: `username = username or os.getenv("FALKORDB_USERNAME")`. -/
def resolveUsername (username : Option String) (env : Env) : Option String :=
  pyOrOptStr username env.FALKORDB_USERNAME

/-- Line 50: `password = password or os.getenv("FALKORDB_PASSWORD")`. -/
def resolvePassword (password : Option String) (env : Env) : Option String :=
  pyOrOptStr password env.FALKORDB_PASSWORD

/-- Line 60: `self.graph_name = graph_name or os.getenv("FALKORDB_GRAPH", "agno")`. -/
def resolveGraphName (graph_name : Option String) (env : Env) : String :=
  pyOrStr graph_name (getenvD env.FALKORDB_GRAPH "agno")

/-- The constructor's arguments (each `none` models an omitted argument;
flag defaults match the Python signature). -/
structure InitArgs where
  host : Option String := none
  port : Option Int := none
  username : Option String := none
  password : Option String := none
  graph_name : Option String := none
  enable_list_labels : Bool := true
  enable_list_relationships : Bool := true
  enable_get_schema : Bool := true
  enable_run_cypher : Bool := true
  all : Bool := false

/-- The constructed toolkit object.  `db` and `graph_name` are the instance
attributes assigned in `__init__`; `tools` and `name` model what is handed
to the tool-registration host.  Modelled from the spec: the base `Toolkit`
class is not under `src/`; per the spec it "accepts a named bundle of
callables and a symbolic toolkit name" and exposes them, so registration is
modelled as storing the advertised operation list and the toolkit name. -/
structure FalkorDBTools where
  db : DBConn
  graph_name : String
  tools : List Op
  name : String

/-- Lines 62-71: the advertised-tool list, one `if all or flag` per operation. -/
def mkTools (args : InitArgs) : List Op :=
  (if args.all || args.enable_list_labels then [Op.list_labels] else [])
  ++ (if args.all || args.enable_list_relationships then [Op.list_relationship_types] else [])
  ++ (if args.all || args.enable_get_schema then [Op.get_schema] else [])
  ++ (if args.all || args.enable_run_cypher then [Op.run_cypher_query] else [])

/-- `FalkorDBTools.__init__` (lines 46-72).  `connect` models the external
`FalkorDB(host=..., port=..., username=..., password=...)` constructor,
which returns a connection or raises; the `try/except` around it logs and
re-raises, so the error propagates unchanged.  A `ValueError` from the port
conversion (line 48) also propagates.  On success the instance holds the
connection, the resolved graph name, and the advertised tools. -/
def FalkorDBTools.init (args : InitArgs) (env : Env)
    (connect : String → Int → Option String → Option String → Except PyErr DBConn) :
    Except PyErr FalkorDBTools := do
  let host := resolveHost args.host env
  let port ← resolvePort args.port env
  let username := resolveUsername args.username env
  let password := resolvePassword args.password env
  let db ← connect host port username password
  let graph_name := resolveGraphName args.graph_name env
  Except.ok { db := db, graph_name := graph_name, tools := mkTools args, name := "falkordb_tools" }

/-- `record[i]` on a Python list: the value, or an `IndexError`. -/
def pyIndex (l : List Value) (i : Nat) : Except PyErr Value :=
  match l.get? i with
  | some v => Except.ok v
  | none => Except.error "IndexError"

/-- A Python loop `for x in l: ... append (f x)` collecting results, where the
body may raise: stops at the first raised error. -/
def mapExcept (f : α → Except PyErr β) : List α → Except PyErr (List β)
  | [] => Except.ok []
  | a :: as => do
    let b ← f a
    let bs ← mapExcept f as
    Except.ok (b :: bs)

/-- The comprehension `[record[0] for record in rows]` (lines 82, 96, 112, 115). -/
def extractCol0 (rows : List (List Value)) : Except PyErr (List Value) :=
  mapExcept (fun record => pyIndex record 0) rows

/-- A Python dict with string keys, as an insertion-ordered association
list. -/
abbrev Dict := List (String × Value)

/-- The keys of a dict, in insertion order. -/
def dictKeys (d : Dict) : List String := d.map Prod.fst

/-- Python `d[k] = v`: update in place when the key exists, else append. -/
def dictSet (d : Dict) (k : String) (v : Value) : Dict :=
  if d.any (fun p => p.1 = k) then
    d.map (fun p => if p.1 = k then (k, v) else p)
  else
    d ++ [(k, v)]

/-- Python truthiness of `result.header` (an optional list): `None` and the
empty list are falsy. -/
def pyTruthyHeader : Option (List String) → Bool
  | none => false
  | some l => !l.isEmpty

/-- The inner loop of `run_cypher_query` (lines 138-140):
`for i, column_name in enumerate(result.header): row_dict[column_name] = record[i]`,
starting from dict `d` at index `i`; `record[i]` may raise `IndexError`. -/
def buildRowDictAux (record : List Value) : Nat → List String → Dict → Except PyErr Dict
  | _, [], d => Except.ok d
  | i, column_name :: rest, d =>
    match record.get? i with
    | some v => buildRowDictAux record (i + 1) rest (dictSet d column_name v)
    | none => Except.error "IndexError"

/-- Lines 138-140: build the record dict for one row (`row_dict = {}` then
the enumerate loop). -/
def buildRowDict (header : List String) (record : List Value) : Except PyErr Dict :=
  buildRowDictAux record 0 header []

/-- An element of `run_cypher_query`'s returned list: a dict (header
present) or a raw row (no header). -/
inductive RQItem
  | dict (d : Dict)
  | row (r : List Value)
  deriving DecidableEq

/-- Body of the `try` block of `list_labels` (lines 78-83). -/
def list_labels_body (db : DBConn) (graph_name : String) : Except PyErr (List Value) := do
  let graph ← db.select_graph graph_name
  let result ← graph.query "CALL db.labels()"
  let labels ← extractCol0 result.result_set
  Except.ok labels

/-- Body of the `try` block of `list_relationship_types` (lines 92-97). -/
def list_relationship_types_body (db : DBConn) (graph_name : String) : Except PyErr (List Value) := do
  let graph ← db.select_graph graph_name
  let result ← graph.query "CALL db.relationshipTypes()"
  let types ← extractCol0 result.result_set
  Except.ok types

/-- The single element of `get_schema`'s result:
`{"labels": labels, "relationshipTypes": rel_types}` (line 117). -/
structure SchemaRecord where
  labels : List Value
  relationshipTypes : List Value
  deriving DecidableEq

/-- Body of the `try` block of `get_schema` (lines 106-118). -/
def get_schema_body (db : DBConn) (graph_name : String) : Except PyErr (List SchemaRecord) := do
  let graph ← db.select_graph graph_name
  let labels_result ← graph.query "CALL db.labels()"
  let labels ← extractCol0 labels_result.result_set
  let rel_types_result ← graph.query "CALL db.relationshipTypes()"
  let rel_types ← extractCol0 rel_types_result.result_set
  Except.ok [{ labels := labels, relationshipTypes := rel_types }]

/-- Body of the `try` block of `run_cypher_query` (lines 130-145). -/
def run_cypher_query_body (db : DBConn) (graph_name : String) (query : String) :
    Except PyErr (List RQItem) := do
  let graph ← db.select_graph graph_name
  let result ← graph.query query
  if pyTruthyHeader result.header then
    let data ← mapExcept
      (fun record => do
        let row_dict ← buildRowDict (result.header.getD []) record
        Except.ok (RQItem.dict row_dict))
      result.result_set
    Except.ok data
  else
    Except.ok (result.result_set.map RQItem.row)

/-- `list_labels` (lines 74-86): the `try` body, with any exception caught,
logged, and turned into `[]`.  The method reads `self.db` and
`self.graph_name` and assigns no attribute, so the instance is returned
unchanged alongside the result. -/
def FalkorDBTools.list_labels (self : FalkorDBTools) : List Value × FalkorDBTools :=
  match list_labels_body self.db self.graph_name with
  | Except.ok labels => (labels, self)
  | Except.error _ => ([], self)

/-- `list_relationship_types` (lines 88-100), with the same catch-all. -/
def FalkorDBTools.list_relationship_types (self : FalkorDBTools) : List Value × FalkorDBTools :=
  match list_relationship_types_body self.db self.graph_name with
  | Except.ok types => (types, self)
  | Except.error _ => ([], self)

/-- `get_schema` (lines 102-121), with the same catch-all. -/
def FalkorDBTools.get_schema (self : FalkorDBTools) : List SchemaRecord × FalkorDBTools :=
  match get_schema_body self.db self.graph_name with
  | Except.ok schema_data => (schema_data, self)
  | Except.error _ => ([], self)

/-- `run_cypher_query` (lines 123-148), with the same catch-all. -/
def FalkorDBTools.run_cypher_query (self : FalkorDBTools) (query : String) :
    List RQItem × FalkorDBTools :=
  match run_cypher_query_body self.db self.graph_name query with
  | Except.ok data => (data, self)
  | Except.error _ => ([], self)

/-!
Spec-side definitions (written from the spec's words, for comparison with
the embedded code) and concrete fixtures used by counterexamples and
witnesses.
-/

/-- Written from the claim's words: the resolved host "takes the explicitly
passed argument if one was given, otherwise the environment variable if
set, otherwise the hard-coded default". -/
def claimResolveHost (arg : Option String) (env : Env) : String :=
  match arg with
  | some s => s
  | none => getenvD env.FALKORDB_HOST "localhost"

/-- Written from the claim's words: "one string-keyed record per row, with
header names as keys matched positionally to row values". -/
def claimRecord (header : List String) (row : List Value) : Dict :=
  header.zip row

/-- Environment with only `FALKORDB_HOST` set (counterexample fixture). -/
def cexEnv : Env := { FALKORDB_HOST := some "db.example.com" }

/-- A query result whose header is present but empty (counterexample
fixture for the header-truthiness branch). -/
def cexQR : QueryResult := { header := some [], result_set := [[Value.int 1]] }

/-- A graph returning `cexQR` for every query. -/
def cexGraph : Graph := ⟨fun _ => Except.ok cexQR⟩

/-- A toolkit instance connected to `cexGraph`. -/
def cexTools : FalkorDBTools :=
  { db := ⟨fun _ => Except.ok cexGraph⟩, graph_name := "agno", tools := [], name := "falkordb_tools" }

/-- A graph answering the two introspection queries with the test suite's
fixture rows. -/
def wGraphA : Graph :=
  ⟨fun q =>
    if q = "CALL db.labels()" then
      Except.ok { header := none, result_set := [[Value.str "Person"], [Value.str "Movie"]] }
    else
      Except.ok { header := none, result_set := [[Value.str "ACTED_IN"], [Value.str "DIRECTED"]] }⟩

/-- A toolkit connected to `wGraphA`. -/
def wToolsA : FalkorDBTools :=
  { db := ⟨fun _ => Except.ok wGraphA⟩, graph_name := "agno", tools := [], name := "falkordb_tools" }

/-- A connection whose every call raises (witness fixture for the error
paths). -/
def wToolsErr : FalkorDBTools :=
  { db := ⟨fun _ => Except.error "connection refused"⟩, graph_name := "agno", tools := [],
    name := "falkordb_tools" }

/-- A graph where the label query succeeds and every other query raises
(witness fixture for the partial-failure path of `get_schema`). -/
def wGraphB : Graph :=
  ⟨fun q =>
    if q = "CALL db.labels()" then
      Except.ok { header := none, result_set := [[Value.str "Person"]] }
    else
      Except.error "timeout"⟩

/-- A toolkit connected to `wGraphB`. -/
def wToolsB : FalkorDBTools :=
  { db := ⟨fun _ => Except.ok wGraphB⟩, graph_name := "agno", tools := [], name := "falkordb_tools" }

/-- A graph returning the spec's `runQuery` example: header
`["name","age"]`, rows `[["John",30],["Jane",25]]`. -/
def wGraphC : Graph :=
  ⟨fun _ =>
    Except.ok
      { header := some ["name", "age"],
        result_set := [[Value.str "John", Value.int 30], [Value.str "Jane", Value.int 25]] }⟩

/-- A toolkit connected to `wGraphC`. -/
def wToolsC : FalkorDBTools :=
  { db := ⟨fun _ => Except.ok wGraphC⟩, graph_name := "agno", tools := [], name := "falkordb_tools" }

/-- A graph returning the spec's headerless example: rows `[[1],[2],[3]]`. -/
def wGraphD : Graph :=
  ⟨fun _ =>
    Except.ok { header := none, result_set := [[Value.int 1], [Value.int 2], [Value.int 3]] }⟩

/-- A toolkit connected to `wGraphD`. -/
def wToolsD : FalkorDBTools :=
  { db := ⟨fun _ => Except.ok wGraphD⟩, graph_name := "agno", tools := [], name := "falkordb_tools" }

/-- A graph returning a two-column header with one row shorter than the
header (witness fixture for the out-of-range row case). -/
def wGraphE : Graph :=
  ⟨fun _ =>
    Except.ok { header := some ["name", "age"], result_set := [[Value.str "John"]] }⟩

/-- A toolkit connected to `wGraphE`. -/
def wToolsE : FalkorDBTools :=
  { db := ⟨fun _ => Except.ok wGraphE⟩, graph_name := "agno", tools := [], name := "falkordb_tools" }

/-- A connect function that always succeeds, handing out `wGraphA`'s
connection (witness fixture for construction). -/
def wConnectOk : String → Int → Option String → Option String → Except PyErr DBConn :=
  fun _ _ _ _ => Except.ok ⟨fun _ => Except.ok wGraphA⟩

/-- A connect function that always raises (witness fixture for
construction failure). -/
def wConnectFail : String → Int → Option String → Option String → Except PyErr DBConn :=
  fun _ _ _ _ => Except.error "could not connect"

/-!
Helper lemmas about the embedded primitives.
-/

theorem except_ok_bind {α β : Type} (a : α) (f : α → Except PyErr β) :
    (Except.ok a : Except PyErr α) >>= f = f a := rfl

theorem except_error_bind {α β : Type} (e : PyErr) (f : α → Except PyErr β) :
    (Except.error e : Except PyErr α) >>= f = Except.error e := rfl

theorem mem_dictKeys_dictSet (d : Dict) (k : String) (v : Value) (a : String) :
    a ∈ dictKeys (dictSet d k v) ↔ a ∈ dictKeys d ∨ a = k := by
  unfold dictSet
  by_cases h : d.any (fun p => decide (p.1 = k)) = true
  · have hk : k ∈ dictKeys d := by
      rcases List.any_eq_true.mp h with ⟨p, hp, he⟩
      exact List.mem_map.mpr ⟨p, hp, of_decide_eq_true he⟩
    have hkeys :
        dictKeys (d.map fun p => if p.1 = k then (k, v) else p) = dictKeys d := by
      unfold dictKeys
      rw [List.map_map]
      apply List.map_congr_left
      intro p _
      by_cases hpk : p.1 = k
      · simp [hpk]
      · simp [hpk]
    rw [h]
    simp only [if_true, hkeys]
    constructor
    · intro ha; exact Or.inl ha
    · rintro (ha | rfl)
      · exact ha
      · exact hk
  · rw [eq_false_of_ne_true h]
    simp only [Bool.false_eq_true, if_false]
    unfold dictKeys
    rw [List.map_append]
    simp [or_comm]

theorem dictSet_of_not_mem {d : Dict} {k : String} (v : Value) (h : k ∉ dictKeys d) :
    dictSet d k v = d ++ [(k, v)] := by
  unfold dictSet
  have hfalse : d.any (fun p => decide (p.1 = k)) = false := by
    rw [List.any_eq_false]
    intro p hp hpk
    exact h (List.mem_map.mpr ⟨p, hp, of_decide_eq_true hpk⟩)
  rw [hfalse]
  simp

theorem buildRowDictAux_eq_zip (record : List Value) :
    ∀ (hdr : List String) (i : Nat) (d : Dict), hdr.Nodup →
      (∀ c ∈ hdr, c ∉ dictKeys d) → i + hdr.length ≤ record.length →
      buildRowDictAux record i hdr d = Except.ok (d ++ hdr.zip (record.drop i))
  | [], i, d, _, _, _ => by simp [buildRowDictAux]
  | c :: rest, i, d, hnd, hdisj, hlen => by
    have hi : i < record.length := by
      simp only [List.length_cons] at hlen
      omega
    have hget : record.get? i = some (record.get ⟨i, hi⟩) := List.get?_eq_get hi
    have hcd : c ∉ dictKeys d := hdisj c (List.mem_cons_self c rest)
    have hstep := dictSet_of_not_mem (d := d) (k := c) (record.get ⟨i, hi⟩) hcd
    have hkeys : dictKeys (d ++ [(c, record.get ⟨i, hi⟩)]) = dictKeys d ++ [c] := by
      unfold dictKeys
      rw [List.map_append]
      rfl
    have hdisj' : ∀ a ∈ rest, a ∉ dictKeys (dictSet d c (record.get ⟨i, hi⟩)) := by
      intro a ha
      rw [hstep, hkeys]
      intro hmem
      rcases List.mem_append.mp hmem with hmem | hmem
      · exact hdisj a (List.mem_cons_of_mem c ha) hmem
      · have hac : a = c := by simpa using hmem
        have : c ∉ rest := (List.nodup_cons.mp hnd).1
        exact this (hac ▸ ha)
    have ih := buildRowDictAux_eq_zip record rest (i + 1)
      (dictSet d c (record.get ⟨i, hi⟩)) (List.Nodup.of_cons hnd) hdisj'
      (by simp only [List.length_cons] at hlen; omega)
    have hdrop : record.drop i = record.get ⟨i, hi⟩ :: record.drop (i + 1) := by
      rw [List.get_eq_getElem]
      exact List.drop_eq_getElem_cons hi
    simp only [buildRowDictAux, hget]
    rw [ih, hstep, hdrop, List.zip_cons_cons, List.append_assoc]
    rfl

theorem buildRowDictAux_ok (record : List Value) :
    ∀ (hdr : List String) (i : Nat) (d : Dict), i + hdr.length ≤ record.length →
      ∃ d2, buildRowDictAux record i hdr d = Except.ok d2
  | [], _, d, _ => ⟨d, rfl⟩
  | c :: rest, i, d, hlen => by
    have hi : i < record.length := by
      simp only [List.length_cons] at hlen
      omega
    have hget : record.get? i = some (record.get ⟨i, hi⟩) := List.get?_eq_get hi
    simp only [buildRowDictAux, hget]
    exact buildRowDictAux_ok record rest (i + 1) (dictSet d c (record.get ⟨i, hi⟩))
      (by simp only [List.length_cons] at hlen; omega)

theorem buildRowDictAux_error (record : List Value) :
    ∀ (hdr : List String) (i : Nat) (d : Dict), hdr ≠ [] →
      record.length < i + hdr.length →
      buildRowDictAux record i hdr d = Except.error "IndexError"
  | [], _, _, hne, _ => absurd rfl hne
  | c :: rest, i, d, _, hlen => by
    cases hget : record.get? i with
    | none => simp only [buildRowDictAux, hget]
    | some v =>
      have hi : i < record.length := by
        rcases List.get?_eq_some.mp hget with ⟨h, _⟩
        exact h
      have hrest : rest ≠ [] := by
        intro hrnil
        subst hrnil
        simp only [List.length_cons, List.length_nil] at hlen
        omega
      simp only [buildRowDictAux, hget]
      exact buildRowDictAux_error record rest (i + 1) (dictSet d c v) hrest
        (by simp only [List.length_cons] at hlen; omega)

theorem buildRowDictAux_keys (record : List Value) :
    ∀ (hdr : List String) (i : Nat) (d0 d : Dict),
      buildRowDictAux record i hdr d0 = Except.ok d →
      ∀ k, k ∈ dictKeys d ↔ k ∈ dictKeys d0 ∨ k ∈ hdr
  | [], i, d0, d, h, k => by
    simp only [buildRowDictAux] at h
    cases h
    simp
  | c :: rest, i, d0, d, h, k => by
    cases hget : record.get? i with
    | none =>
      simp only [buildRowDictAux, hget] at h
      exact Except.noConfusion h
    | some v =>
      simp only [buildRowDictAux, hget] at h
      have ih := buildRowDictAux_keys record rest (i + 1) (dictSet d0 c v) d h k
      rw [ih, mem_dictKeys_dictSet]
      simp only [List.mem_cons]
      tauto

theorem buildRowDictAux_take (record : List Value) (n : Nat) :
    ∀ (hdr : List String) (i : Nat) (d : Dict), i + hdr.length ≤ n →
      buildRowDictAux (record.take n) i hdr d = buildRowDictAux record i hdr d
  | [], _, _, _ => rfl
  | c :: rest, i, d, hlen => by
    have hi : i < n := by
      simp only [List.length_cons] at hlen
      omega
    have hget : (record.take n).get? i = record.get? i := List.get?_take hi
    simp only [buildRowDictAux, hget]
    cases record.get? i with
    | none => rfl
    | some v =>
      exact buildRowDictAux_take record n rest (i + 1) (dictSet d c v)
        (by simp only [List.length_cons] at hlen; omega)

theorem mapExcept_eq_map {α β : Type} (f : α → Except PyErr β) (g : α → β) :
    ∀ l : List α, (∀ a ∈ l, f a = Except.ok (g a)) → mapExcept f l = Except.ok (l.map g)
  | [], _ => rfl
  | a :: as, h => by
    have ha := h a (List.mem_cons_self a as)
    have ih := mapExcept_eq_map f g as (fun b hb => h b (List.mem_cons_of_mem a hb))
    simp only [mapExcept, ha, except_ok_bind, ih, List.map_cons]

theorem mapExcept_ok {α β : Type} (f : α → Except PyErr β) :
    ∀ l : List α, (∀ a ∈ l, ∃ b, f a = Except.ok b) → ∃ bs, mapExcept f l = Except.ok bs
  | [], _ => ⟨[], rfl⟩
  | a :: as, h => by
    rcases h a (List.mem_cons_self a as) with ⟨b, hb⟩
    rcases mapExcept_ok f as (fun c hc => h c (List.mem_cons_of_mem a hc)) with ⟨bs, hbs⟩
    exact ⟨b :: bs, by simp only [mapExcept, hb, except_ok_bind, hbs]⟩

theorem mapExcept_error {α β : Type} (f : α → Except PyErr β) {a : α} {e : PyErr} :
    ∀ l : List α, a ∈ l → f a = Except.error e →
      ∃ e2, mapExcept f l = Except.error e2
  | b :: bs, hmem, herr => by
    rcases List.mem_cons.mp hmem with rfl | hmem
    · exact ⟨e, by simp only [mapExcept, herr, except_error_bind]⟩
    · cases hb : f b with
      | error e3 => exact ⟨e3, by simp only [mapExcept, hb, except_error_bind]⟩
      | ok v =>
        rcases mapExcept_error f bs hmem herr with ⟨e2, he2⟩
        exact ⟨e2, by simp only [mapExcept, hb, except_ok_bind, he2, except_error_bind]⟩

theorem extractCol0_eq_map :
    ∀ rows : List (List Value), (∀ r ∈ rows, r ≠ []) →
      extractCol0 rows = Except.ok (rows.map List.headI) := by
  intro rows h
  apply mapExcept_eq_map
  intro r hr
  cases r with
  | nil => exact absurd rfl (h [] hr)
  | cons a as => rfl

theorem init_eq (args : InitArgs) (env : Env)
    (connect : String → Int → Option String → Option String → Except PyErr DBConn) :
    FalkorDBTools.init args env connect =
      resolvePort args.port env >>= fun port =>
        connect (resolveHost args.host env) port (resolveUsername args.username env)
            (resolvePassword args.password env) >>= fun db =>
          Except.ok
            { db := db, graph_name := resolveGraphName args.graph_name env,
              tools := mkTools args, name := "falkordb_tools" } := rfl

theorem init_ok_fields {args : InitArgs} {env : Env}
    {connect : String → Int → Option String → Option String → Except PyErr DBConn}
    {st : FalkorDBTools} (h : FalkorDBTools.init args env connect = Except.ok st) :
    st.tools = mkTools args ∧ st.graph_name = resolveGraphName args.graph_name env ∧
      st.name = "falkordb_tools" := by
  rw [init_eq] at h
  cases hp : resolvePort args.port env with
  | error e =>
    rw [hp, except_error_bind] at h
    exact Except.noConfusion h
  | ok p =>
    rw [hp, except_ok_bind] at h
    cases hc : connect (resolveHost args.host env) p (resolveUsername args.username env)
        (resolvePassword args.password env) with
    | error e =>
      rw [hc, except_error_bind] at h
      exact Except.noConfusion h
    | ok db =>
      rw [hc, except_ok_bind] at h
      cases h
      exact ⟨rfl, rfl, rfl⟩

/-- C3: any error raised by the underlying client inside the `try` body of
one of the four public operations is caught there: the operation returns
the empty list (the operations are total functions, so no error ever
propagates; only `FalkorDBTools.init` returns an `Except`). -/
theorem ops_error_yield_empty (t : FalkorDBTools) (q : String) :
    ((∃ e, list_labels_body t.db t.graph_name = Except.error e) →
      (t.list_labels).1 = [])
    ∧ ((∃ e, list_relationship_types_body t.db t.graph_name = Except.error e) →
      (t.list_relationship_types).1 = [])
    ∧ ((∃ e, get_schema_body t.db t.graph_name = Except.error e) →
      (t.get_schema).1 = [])
    ∧ ((∃ e, run_cypher_query_body t.db t.graph_name q = Except.error e) →
      (t.run_cypher_query q).1 = []) := by
  refine ⟨?_, ?_, ?_, ?_⟩
  · rintro ⟨e, he⟩
    simp [FalkorDBTools.list_labels, he]
  · rintro ⟨e, he⟩
    simp [FalkorDBTools.list_relationship_types, he]
  · rintro ⟨e, he⟩
    simp [FalkorDBTools.get_schema, he]
  · rintro ⟨e, he⟩
    simp [FalkorDBTools.run_cypher_query, he]

theorem ops_error_yield_empty_witness :
    (wToolsErr.list_labels).1 = [] ∧ (wToolsErr.list_relationship_types).1 = []
    ∧ (wToolsErr.get_schema).1 = [] ∧ (wToolsErr.run_cypher_query "MATCH (n) RETURN n").1 = [] := by
  obtain ⟨h1, h2, h3, h4⟩ := ops_error_yield_empty wToolsErr "MATCH (n) RETURN n"
  exact ⟨h1 ⟨"connection refused", rfl⟩, h2 ⟨"connection refused", rfl⟩,
    h3 ⟨"connection refused", rfl⟩, h4 ⟨"connection refused", rfl⟩⟩

/-- C10: every public operation returns the instance unchanged: `db` and
`graph_name` (and the registered tools) are read, never reassigned, on both
the success and the error path. -/
theorem ops_preserve_state (t : FalkorDBTools) (q : String) :
    (t.list_labels).2 = t ∧ (t.list_relationship_types).2 = t
    ∧ (t.get_schema).2 = t ∧ (t.run_cypher_query q).2 = t := by
  refine ⟨?_, ?_, ?_, ?_⟩
  · unfold FalkorDBTools.list_labels
    cases list_labels_body t.db t.graph_name <;> rfl
  · unfold FalkorDBTools.list_relationship_types
    cases list_relationship_types_body t.db t.graph_name <;> rfl
  · unfold FalkorDBTools.get_schema
    cases get_schema_body t.db t.graph_name <;> rfl
  · unfold FalkorDBTools.run_cypher_query
    cases run_cypher_query_body t.db t.graph_name q <;> rfl

/-- C7: when the connection attempt raises during construction, the error
propagates unchanged out of `FalkorDBTools.init` and no instance is
produced (the result is `Except.error`, never a half-initialized `.ok`). -/
theorem init_connect_failure_propagates (args : InitArgs) (env : Env)
    (connect : String → Int → Option String → Option String → Except PyErr DBConn)
    (p : Int) (e : PyErr)
    (hp : resolvePort args.port env = Except.ok p)
    (hc : connect (resolveHost args.host env) p (resolveUsername args.username env)
        (resolvePassword args.password env) = Except.error e) :
    FalkorDBTools.init args env connect = Except.error e := by
  rw [init_eq, hp, except_ok_bind, hc, except_error_bind]

theorem init_connect_failure_propagates_witness :
    FalkorDBTools.init {} {} wConnectFail = Except.error "could not connect" :=
  init_connect_failure_propagates {} {} wConnectFail 6379 "could not connect" rfl rfl

/-- C5: when the introspection queries succeed and every result row is
non-empty, `list_labels` and `list_relationship_types` return exactly the
first column of each row, in row order. -/
theorem lists_return_first_column (t : FalkorDBTools) (g : Graph) (lres rres : QueryResult)
    (hg : t.db.select_graph t.graph_name = Except.ok g)
    (hl : g.query "CALL db.labels()" = Except.ok lres)
    (hr : g.query "CALL db.relationshipTypes()" = Except.ok rres)
    (hlne : ∀ r ∈ lres.result_set, r ≠ [])
    (hrne : ∀ r ∈ rres.result_set, r ≠ []) :
    (t.list_labels).1 = lres.result_set.map List.headI
    ∧ (t.list_relationship_types).1 = rres.result_set.map List.headI := by
  constructor
  · have hbody : list_labels_body t.db t.graph_name =
        Except.ok (lres.result_set.map List.headI) := by
      unfold list_labels_body
      rw [hg, except_ok_bind, hl, except_ok_bind, extractCol0_eq_map lres.result_set hlne,
        except_ok_bind]
    simp [FalkorDBTools.list_labels, hbody]
  · have hbody : list_relationship_types_body t.db t.graph_name =
        Except.ok (rres.result_set.map List.headI) := by
      unfold list_relationship_types_body
      rw [hg, except_ok_bind, hr, except_ok_bind, extractCol0_eq_map rres.result_set hrne,
        except_ok_bind]
    simp [FalkorDBTools.list_relationship_types, hbody]

theorem lists_return_first_column_witness :
    (wToolsA.list_labels).1 = [Value.str "Person", Value.str "Movie"]
    ∧ (wToolsA.list_relationship_types).1 = [Value.str "ACTED_IN", Value.str "DIRECTED"] :=
  lists_return_first_column wToolsA wGraphA
    { header := none, result_set := [[Value.str "Person"], [Value.str "Movie"]] }
    { header := none, result_set := [[Value.str "ACTED_IN"], [Value.str "DIRECTED"]] }
    rfl rfl rfl (by decide) (by decide)

/-- C4: whenever both introspection sub-queries (and their first-column
extractions) succeed, `get_schema` returns the single record whose `labels`
and `relationshipTypes` components are exactly what `list_labels` and
`list_relationship_types` return against the same database state. -/
theorem get_schema_matches_lists (t : FalkorDBTools) (g : Graph) (lres rres : QueryResult)
    (labels rel_types : List Value)
    (hg : t.db.select_graph t.graph_name = Except.ok g)
    (hl : g.query "CALL db.labels()" = Except.ok lres)
    (hr : g.query "CALL db.relationshipTypes()" = Except.ok rres)
    (hle : extractCol0 lres.result_set = Except.ok labels)
    (hre : extractCol0 rres.result_set = Except.ok rel_types) :
    (t.get_schema).1 =
      [{ labels := (t.list_labels).1, relationshipTypes := (t.list_relationship_types).1 }] := by
  have hll : (t.list_labels).1 = labels := by
    have hbody : list_labels_body t.db t.graph_name = Except.ok labels := by
      unfold list_labels_body
      rw [hg, except_ok_bind, hl, except_ok_bind, hle, except_ok_bind]
    simp [FalkorDBTools.list_labels, hbody]
  have hlr : (t.list_relationship_types).1 = rel_types := by
    have hbody : list_relationship_types_body t.db t.graph_name = Except.ok rel_types := by
      unfold list_relationship_types_body
      rw [hg, except_ok_bind, hr, except_ok_bind, hre, except_ok_bind]
    simp [FalkorDBTools.list_relationship_types, hbody]
  have hbody : get_schema_body t.db t.graph_name =
      Except.ok [{ labels := labels, relationshipTypes := rel_types }] := by
    unfold get_schema_body
    rw [hg, except_ok_bind, hl, except_ok_bind, hle, except_ok_bind, hr, except_ok_bind,
      hre, except_ok_bind]
  rw [hll, hlr]
  simp [FalkorDBTools.get_schema, hbody]

theorem get_schema_matches_lists_witness :
    (wToolsA.get_schema).1 =
      [{ labels := (wToolsA.list_labels).1,
         relationshipTypes := (wToolsA.list_relationship_types).1 }] :=
  get_schema_matches_lists wToolsA wGraphA
    { header := none, result_set := [[Value.str "Person"], [Value.str "Movie"]] }
    { header := none, result_set := [[Value.str "ACTED_IN"], [Value.str "DIRECTED"]] }
    [Value.str "Person", Value.str "Movie"] [Value.str "ACTED_IN", Value.str "DIRECTED"]
    rfl rfl rfl rfl rfl

/-- C6: inside `get_schema`, an exception during either sub-query aborts
the whole operation with an empty result: if the label query itself
raises, `get_schema` returns `[]`; and if the label query and its
extraction succeed but the relationship-type query raises, the computed
labels are discarded and `get_schema` still returns `[]`. -/
theorem get_schema_subquery_failure (t : FalkorDBTools) (g : Graph)
    (hg : t.db.select_graph t.graph_name = Except.ok g) :
    (∀ e, g.query "CALL db.labels()" = Except.error e → (t.get_schema).1 = [])
    ∧ (∀ lres labels e, g.query "CALL db.labels()" = Except.ok lres →
        extractCol0 lres.result_set = Except.ok labels →
        g.query "CALL db.relationshipTypes()" = Except.error e →
        (t.get_schema).1 = []) := by
  constructor
  · intro e he
    have hbody : get_schema_body t.db t.graph_name = Except.error e := by
      unfold get_schema_body
      rw [hg, except_ok_bind, he, except_error_bind]
    simp [FalkorDBTools.get_schema, hbody]
  · intro lres labels e hl hle hr
    have hbody : get_schema_body t.db t.graph_name = Except.error e := by
      unfold get_schema_body
      rw [hg, except_ok_bind, hl, except_ok_bind, hle, except_ok_bind, hr, except_error_bind]
    simp [FalkorDBTools.get_schema, hbody]

theorem get_schema_subquery_failure_witness :
    (wToolsB.get_schema).1 = [] ∧ (wToolsB.list_labels).1 = [Value.str "Person"] := by
  constructor
  · exact (get_schema_subquery_failure wToolsB wGraphB rfl).2
      { header := none, result_set := [[Value.str "Person"]] } [Value.str "Person"]
      "timeout" rfl rfl rfl
  · rfl

/-- Flag of an operation among the constructor's individual enable flags. -/
def flagOf (args : InitArgs) : Op → Bool
  | Op.list_labels => args.enable_list_labels
  | Op.list_relationship_types => args.enable_list_relationships
  | Op.get_schema => args.enable_get_schema
  | Op.run_cypher_query => args.enable_run_cypher

theorem mem_mkTools (args : InitArgs) (op : Op) :
    op ∈ mkTools args ↔ (args.all || flagOf args op) = true := by
  rcases args with ⟨h, p, u, pw, gn, e1, e2, e3, e4, al⟩
  cases op <;> cases al <;> cases e1 <;> cases e2 <;> cases e3 <;> cases e4 <;>
    simp [mkTools, flagOf]

/-- C8: an operation is advertised to the tool-registration host exactly
when the `all` argument or its own enable flag is true; with `all` false
and all four flags false nothing is advertised, and with `all` true all
four operations are advertised regardless of the flags.  (The operations
themselves are plain functions on the instance, so direct invocation does
not consult the advertised list.) -/
theorem tools_advertised_iff (args : InitArgs) (env : Env)
    (connect : String → Int → Option String → Option String → Except PyErr DBConn)
    (st : FalkorDBTools) (h : FalkorDBTools.init args env connect = Except.ok st) :
    (∀ op : Op, op ∈ st.tools ↔ (args.all || flagOf args op) = true)
    ∧ (args.all = false → args.enable_list_labels = false →
        args.enable_list_relationships = false → args.enable_get_schema = false →
        args.enable_run_cypher = false → st.tools = [])
    ∧ (args.all = true →
        st.tools = [Op.list_labels, Op.list_relationship_types, Op.get_schema,
          Op.run_cypher_query]) := by
  obtain ⟨ht, -, -⟩ := init_ok_fields h
  refine ⟨?_, ?_, ?_⟩
  · intro op
    rw [ht]
    exact mem_mkTools args op
  · intro hal h1 h2 h3 h4
    rw [ht]
    simp [mkTools, hal, h1, h2, h3, h4]
  · intro hal
    rw [ht]
    simp [mkTools, hal]

theorem tools_advertised_iff_witness :
    (∃ st, FalkorDBTools.init
        { enable_list_labels := false, enable_list_relationships := false,
          enable_get_schema := false, enable_run_cypher := false } {} wConnectOk = Except.ok st
      ∧ st.tools = [])
    ∧ (∃ st, FalkorDBTools.init { all := true } {} wConnectOk = Except.ok st
      ∧ st.tools = [Op.list_labels, Op.list_relationship_types, Op.get_schema,
          Op.run_cypher_query]
      ∧ (Op.get_schema ∈ st.tools ↔
          (true || flagOf { all := true } Op.get_schema) = true)) := by
  constructor
  · refine ⟨_, rfl, ?_⟩
    exact (tools_advertised_iff
      { enable_list_labels := false, enable_list_relationships := false,
        enable_get_schema := false, enable_run_cypher := false } {} wConnectOk _ rfl).2.1
      rfl rfl rfl rfl rfl
  · refine ⟨_, rfl, ?_, ?_⟩
    · exact (tools_advertised_iff { all := true } {} wConnectOk _ rfl).2.2 rfl
    · exact (tools_advertised_iff { all := true } {} wConnectOk _ rfl).1 Op.get_schema

/-- C2 counterexample: an explicitly passed empty-string host is "an
argument that was given", yet the code's `host or os.getenv(...)` treats it
as falsy and resolves to the environment variable instead of the passed
value, contradicting the claimed explicit-argument precedence. -/
theorem config_resolution_cex :
    resolveHost (some "") cexEnv = "db.example.com"
    ∧ claimResolveHost (some "") cexEnv = ""
    ∧ resolveHost (some "") cexEnv ≠ claimResolveHost (some "") cexEnv := by
  refine ⟨rfl, rfl, ?_⟩
  intro h
  exact absurd h (by decide)

/-- C2 (amended): each connection-configuration field is resolved by taking
the explicitly passed argument if one was given and it is truthy (non-empty
string, non-zero integer); otherwise the corresponding environment variable
with its hard-coded default (`os.getenv` semantics: the variable's value
when set, the default when not), where for the port the environment string
additionally passes through `int(...)`.  A falsy explicit argument (empty
string, `0`) is treated exactly like an omitted one. -/
theorem config_resolution_precedence (args : InitArgs) (env : Env) :
    (∀ s, args.host = some s → s ≠ "" → resolveHost args.host env = s)
    ∧ ((args.host = none ∨ args.host = some "") →
        resolveHost args.host env = getenvD env.FALKORDB_HOST "localhost")
    ∧ (∀ n : Int, args.port = some n → n ≠ 0 → resolvePort args.port env = Except.ok n)
    ∧ ((args.port = none ∨ args.port = some 0) →
        resolvePort args.port env = pyInt (getenvD env.FALKORDB_PORT "6379"))
    ∧ (∀ s, args.username = some s → s ≠ "" → resolveUsername args.username env = some s)
    ∧ ((args.username = none ∨ args.username = some "") →
        resolveUsername args.username env = env.FALKORDB_USERNAME)
    ∧ (∀ s, args.password = some s → s ≠ "" → resolvePassword args.password env = some s)
    ∧ ((args.password = none ∨ args.password = some "") →
        resolvePassword args.password env = env.FALKORDB_PASSWORD)
    ∧ (∀ s, args.graph_name = some s → s ≠ "" →
        resolveGraphName args.graph_name env = s)
    ∧ ((args.graph_name = none ∨ args.graph_name = some "") →
        resolveGraphName args.graph_name env = getenvD env.FALKORDB_GRAPH "agno")
    ∧ (∀ connect st, FalkorDBTools.init args env connect = Except.ok st →
        st.graph_name = resolveGraphName args.graph_name env) := by
  refine ⟨?_, ?_, ?_, ?_, ?_, ?_, ?_, ?_, ?_, ?_, ?_⟩
  · intro s hs hne
    rw [hs]
    simp [resolveHost, pyOrStr, String.isEmpty_iff, hne]
  · rintro (h | h) <;> rw [h] <;> rfl
  · intro n hn hne
    rw [hn]
    simp [resolvePort, pyTruthyInt, hne]
  · rintro (h | h) <;> rw [h] <;> simp [resolvePort, pyTruthyInt]
  · intro s hs hne
    rw [hs]
    simp [resolveUsername, pyOrOptStr, String.isEmpty_iff, hne]
  · rintro (h | h) <;> rw [h] <;> rfl
  · intro s hs hne
    rw [hs]
    simp [resolvePassword, pyOrOptStr, String.isEmpty_iff, hne]
  · rintro (h | h) <;> rw [h] <;> rfl
  · intro s hs hne
    rw [hs]
    simp [resolveGraphName, pyOrStr, String.isEmpty_iff, hne]
  · rintro (h | h) <;> rw [h] <;> rfl
  · intro connect st h
    exact (init_ok_fields h).2.1

theorem config_resolution_precedence_witness :
    resolveHost (some "db-a") { FALKORDB_HOST := some "db-b" } = "db-a"
    ∧ resolvePort (some 7000) {} = Except.ok 7000
    ∧ resolveUsername none { FALKORDB_USERNAME := some "alice" } = some "alice"
    ∧ resolvePassword (some "") { FALKORDB_PASSWORD := some "letmein" } = some "letmein"
    ∧ resolveGraphName none {} = "agno"
    ∧ (∃ st, FalkorDBTools.init { graph_name := some "g1" } {} wConnectOk = Except.ok st
        ∧ st.graph_name = resolveGraphName (some "g1") {} ∧ st.graph_name = "g1") := by
  have hA := config_resolution_precedence
    { host := some "db-a" } { FALKORDB_HOST := some "db-b" }
  have hB := config_resolution_precedence { port := some 7000 } ({} : Env)
  have hC := config_resolution_precedence ({} : InitArgs)
    { FALKORDB_USERNAME := some "alice" }
  have hD := config_resolution_precedence { password := some "" }
    { FALKORDB_PASSWORD := some "letmein" }
  have hE := config_resolution_precedence ({} : InitArgs) ({} : Env)
  have hF := config_resolution_precedence { graph_name := some "g1" } ({} : Env)
  refine ⟨?_, ?_, ?_, ?_, ?_, ?_⟩
  · exact hA.1 "db-a" rfl (by decide)
  · exact hB.2.2.1 7000 rfl (by decide)
  · exact hC.2.2.2.2.2.1 (Or.inl rfl)
  · exact hD.2.2.2.2.2.2.2.1 (Or.inr rfl)
  · exact hE.2.2.2.2.2.2.2.2.2.1 (Or.inl rfl)
  · exact ⟨_, rfl, hF.2.2.2.2.2.2.2.2.2.2 wConnectOk _ rfl, rfl⟩

theorem buildRowDict_eq_zip (hdr : List String) (record : List Value) (hnd : hdr.Nodup)
    (hlen : hdr.length ≤ record.length) :
    buildRowDict hdr record = Except.ok (hdr.zip record) := by
  have h := buildRowDictAux_eq_zip record hdr 0 [] hnd
    (by intro c _; simp [dictKeys]) (by omega)
  simpa [buildRowDict] using h

theorem pyTruthyHeader_some {hdr : List String} (hne : hdr ≠ []) :
    pyTruthyHeader (some hdr) = true := by
  cases hdr with
  | nil => exact absurd rfl hne
  | cons a l => rfl

/-- C1 counterexample: a result whose header is present but empty carries a
header, yet `run_cypher_query` takes the no-header branch (Python `if
result.header:` is false for an empty list) and returns the raw row, not
the claimed one-record-per-row list. -/
theorem run_cypher_query_header_cex :
    cexQR.header = some []
    ∧ cexGraph.query "RETURN 1" = Except.ok cexQR
    ∧ (cexTools.run_cypher_query "RETURN 1").1 = [RQItem.row [Value.int 1]]
    ∧ (cexTools.run_cypher_query "RETURN 1").1
        ≠ cexQR.result_set.map (fun row => RQItem.dict (claimRecord [] row)) := by
  refine ⟨rfl, rfl, rfl, ?_⟩
  intro h
  exact absurd h (by decide)

/-- C1 (amended): when the query succeeds, `run_cypher_query` returns one
string-keyed record per row in row order, keys = header names matched
positionally to row values, provided the header is present AND non-empty
(with distinct names and rows at least as long as the header); when the
header is absent — or present but empty — the raw row sequence is
returned unchanged. -/
theorem run_cypher_query_shape (t : FalkorDBTools) (q : String) (g : Graph)
    (res : QueryResult)
    (hg : t.db.select_graph t.graph_name = Except.ok g)
    (hq : g.query q = Except.ok res) :
    (∀ hdr, res.header = some hdr → hdr ≠ [] → hdr.Nodup →
      (∀ row ∈ res.result_set, hdr.length ≤ row.length) →
      (t.run_cypher_query q).1 =
        res.result_set.map (fun row => RQItem.dict (claimRecord hdr row)))
    ∧ (res.header = none ∨ res.header = some [] →
        (t.run_cypher_query q).1 = res.result_set.map RQItem.row) := by
  constructor
  · intro hdr hh hne hnd hlen
    have hbody : run_cypher_query_body t.db t.graph_name q =
        Except.ok (res.result_set.map (fun row => RQItem.dict (claimRecord hdr row))) := by
      unfold run_cypher_query_body
      rw [hg, except_ok_bind, hq, except_ok_bind, hh, pyTruthyHeader_some hne]
      simp only [if_true, Option.getD_some]
      rw [mapExcept_eq_map _ (fun row => RQItem.dict (claimRecord hdr row)) res.result_set
        (fun record hrec => by
          rw [buildRowDict_eq_zip hdr record hnd (hlen record hrec), except_ok_bind]
          rfl)]
      rw [except_ok_bind]
    simp [FalkorDBTools.run_cypher_query, hbody]
  · intro hh
    have hbody : run_cypher_query_body t.db t.graph_name q =
        Except.ok (res.result_set.map RQItem.row) := by
      unfold run_cypher_query_body
      rcases hh with hh | hh <;> rw [hg, except_ok_bind, hq, except_ok_bind, hh] <;> rfl
    simp [FalkorDBTools.run_cypher_query, hbody]

theorem run_cypher_query_shape_witness :
    (wToolsC.run_cypher_query "MATCH (p:Person) RETURN p.name as name, p.age as age").1
      = [RQItem.dict [("name", Value.str "John"), ("age", Value.int 30)],
         RQItem.dict [("name", Value.str "Jane"), ("age", Value.int 25)]]
    ∧ (wToolsD.run_cypher_query "MATCH (n) RETURN count(n)").1
      = [RQItem.row [Value.int 1], RQItem.row [Value.int 2], RQItem.row [Value.int 3]]
    ∧ (cexTools.run_cypher_query "RETURN 1").1 = [RQItem.row [Value.int 1]] := by
  refine ⟨?_, ?_, ?_⟩
  · exact (run_cypher_query_shape wToolsC "MATCH (p:Person) RETURN p.name as name, p.age as age"
      wGraphC
      { header := some ["name", "age"],
        result_set := [[Value.str "John", Value.int 30], [Value.str "Jane", Value.int 25]] }
      rfl rfl).1 ["name", "age"] rfl (by decide) (by decide) (by decide)
  · exact (run_cypher_query_shape wToolsD "MATCH (n) RETURN count(n)" wGraphD
      { header := none, result_set := [[Value.int 1], [Value.int 2], [Value.int 3]] }
      rfl rfl).2 (Or.inl rfl)
  · exact (run_cypher_query_shape cexTools "RETURN 1" cexGraph cexQR rfl rfl).2 (Or.inr rfl)

/-- C9: with a non-empty header of length `h`: a row shorter than the
header makes the positional lookup raise `IndexError`, which the blanket
handler turns into an empty overall result (all rows are discarded); when
every row has at least `h` values the call succeeds and returns the dict
rows, each record's key set is exactly the set of header names, and values
beyond the first `h` positions of a row never affect its record. -/
theorem run_cypher_query_row_length (t : FalkorDBTools) (q : String) (g : Graph)
    (res : QueryResult) (hdr : List String)
    (hg : t.db.select_graph t.graph_name = Except.ok g)
    (hq : g.query q = Except.ok res)
    (hh : res.header = some hdr) (hne : hdr ≠ []) :
    ((∃ row ∈ res.result_set, row.length < hdr.length) →
      (t.run_cypher_query q).1 = [])
    ∧ ((∀ row ∈ res.result_set, hdr.length ≤ row.length) →
        mapExcept (fun record => buildRowDict hdr record >>= fun d =>
          Except.ok (RQItem.dict d)) res.result_set
          = Except.ok ((t.run_cypher_query q).1))
    ∧ (∀ row d, buildRowDict hdr row = Except.ok d → ∀ k, (k ∈ dictKeys d ↔ k ∈ hdr))
    ∧ (∀ row, hdr.length ≤ row.length →
        buildRowDict hdr row = buildRowDict hdr (row.take hdr.length)) := by
  refine ⟨?_, ?_, ?_, ?_⟩
  · rintro ⟨row, hrow, hlt⟩
    have herr : buildRowDict hdr row = Except.error "IndexError" :=
      buildRowDictAux_error row hdr 0 [] hne (by omega)
    have hferr : (fun record => buildRowDict hdr record >>= fun d =>
        Except.ok (RQItem.dict d)) row = Except.error "IndexError" := by
      simp only [herr, except_error_bind]
    rcases mapExcept_error (fun record => buildRowDict hdr record >>= fun d =>
      Except.ok (RQItem.dict d)) res.result_set hrow hferr with ⟨e2, he2⟩
    have hbody : run_cypher_query_body t.db t.graph_name q = Except.error e2 := by
      unfold run_cypher_query_body
      rw [hg, except_ok_bind, hq, except_ok_bind, hh, pyTruthyHeader_some hne]
      simp only [if_true, Option.getD_some]
      rw [he2, except_error_bind]
    simp [FalkorDBTools.run_cypher_query, hbody]
  · intro hall
    rcases mapExcept_ok (fun record => buildRowDict hdr record >>= fun d =>
        Except.ok (RQItem.dict d)) res.result_set
        (fun row hrow => by
          rcases buildRowDictAux_ok row hdr 0 [] (by have := hall row hrow; omega) with ⟨d, hd⟩
          refine ⟨RQItem.dict d, ?_⟩
          show buildRowDict hdr row >>= (fun d2 => Except.ok (RQItem.dict d2))
            = Except.ok (RQItem.dict d)
          rw [show buildRowDict hdr row = Except.ok d from hd, except_ok_bind]) with ⟨bs, hbs⟩
    have hbody : run_cypher_query_body t.db t.graph_name q = Except.ok bs := by
      unfold run_cypher_query_body
      rw [hg, except_ok_bind, hq, except_ok_bind, hh, pyTruthyHeader_some hne]
      simp only [if_true, Option.getD_some]
      rw [hbs, except_ok_bind]
    rw [hbs]
    simp [FalkorDBTools.run_cypher_query, hbody]
  · intro row d hd k
    have h := buildRowDictAux_keys row hdr 0 [] d hd k
    simpa [dictKeys] using h
  · intro row hlen
    exact (buildRowDictAux_take row hdr.length hdr 0 [] (by omega)).symm

theorem run_cypher_query_row_length_witness :
    (wToolsE.run_cypher_query "MATCH (p) RETURN p.name, p.age").1 = []
    ∧ buildRowDict ["name", "age"] [Value.str "John", Value.int 30, Value.str "extra"]
        = buildRowDict ["name", "age"] [Value.str "John", Value.int 30] := by
  have h := run_cypher_query_row_length wToolsE "MATCH (p) RETURN p.name, p.age" wGraphE
    { header := some ["name", "age"], result_set := [[Value.str "John"]] } ["name", "age"]
    rfl rfl rfl (by decide)
  constructor
  · exact h.1 ⟨[Value.str "John"], by decide, by decide⟩
  · exact h.2.2.2 [Value.str "John", Value.int 30, Value.str "extra"] (by decide)
